import Mathlib

/-!
# go-fcm: message validation, dispatch and response classification

A shallow embedding of `message.go`, `client.go` and `response.go`.

Conventions of the embedding.
* Go `string` is Lean `String`; a nil-able pointer `*T` is `Option T`;
  a Go `error` is `Option GoError` (`none` is the nil error).
* `uint` is `Nat`, `int` is `Int`: the code only compares these numbers and
  prints them, so no arithmetic can wrap.
* The standard-library collaborators (`encoding/json`, `net/http`) are not
  part of the repository; they are parameters of the model, gathered in
  `Env`, and every theorem quantifies over them.
-/

namespace Fcm

/-! ## Errors -/

/-- An error value created outside the package (by `encoding/json`,
`net/http`, the transport): its message, and the `net.Error` traits of its
dynamic type (`false` when the type does not implement them). -/
structure ForeignError where
  msg : String
  temporary : Bool
  timeout : Bool
  deriving DecidableEq, Repr

/-- The error values that the package can return. -/
inductive GoError where
  /-- The sentinel `ErrInvalidMessage`. -/
  | ErrInvalidMessage : GoError
  /-- The sentinel `ErrInvalidTarget`. -/
  | ErrInvalidTarget : GoError
  /-- The sentinel `ErrToManyRegIDs`. -/
  | ErrToManyRegIDs : GoError
  /-- The sentinel `ErrInvalidTimeToLive`. -/
  | ErrInvalidTimeToLive : GoError
  /-- The value `connectionError(s)`. -/
  | connectionError (s : String) : GoError
  /-- The value `serverError(s)`. -/
  | serverError (s : String) : GoError
  /-- The value `fmt.Errorf(...)` without a wrapped error: only a message. -/
  | errorf (s : String) : GoError
  /-- The value `fmt.Errorf(head + "%w", err)`. -/
  | wrapError (head : String) (err : ForeignError) : GoError
  /-- An error of a collaborator, returned unchanged. -/
  | foreign (err : ForeignError) : GoError
  deriving DecidableEq, Repr

/-- The method `Error()` of each error value. -/
def GoError.Error : GoError → String
  | .ErrInvalidMessage => "message is invalid"
  | .ErrInvalidTarget => "topic is invalid or registration ids are not set"
  | .ErrToManyRegIDs => "too many registrations ids"
  | .ErrInvalidTimeToLive => "messages time-to-live is invalid"
  | .connectionError s => s
  | .serverError s => s
  | .errorf s => s
  | .wrapError head err => head ++ err.msg
  | .foreign err => err.msg

/-- The method `Temporary()`; `false` for a value whose type has no such
method. -/
def GoError.Temporary : GoError → Bool
  | .connectionError _ => true
  | .serverError _ => true
  | .foreign err => err.temporary
  | _ => false

/-- The method `Timeout()`; `false` for a value whose type has no such
method. -/
def GoError.Timeout : GoError → Bool
  | .connectionError _ => true
  | .serverError _ => false
  | .foreign err => err.timeout
  | _ => false

/-! ## Messages (`message.go`) -/

/-- A value held in a `map[string]interface{}` payload. -/
inductive Value where
  | null : Value
  | bool (b : Bool) : Value
  | num (n : Int) : Value
  | str (s : String) : Value
  | list (l : List Value) : Value
  | map (m : List (String × Value)) : Value
  | other (tag : Nat) : Value

/-- The struct `Notification`. -/
structure Notification where
  Title : String := ""
  Body : String := ""
  ChannelID : String := ""
  Icon : String := ""
  Image : String := ""
  Sound : String := ""
  Badge : String := ""
  Tag : String := ""
  Color : String := ""
  ClickAction : String := ""
  BodyLocKey : String := ""
  BodyLocArgs : String := ""
  TitleLocKey : String := ""
  TitleLocArgs : String := ""

/-- The struct `Message`. -/
structure Message where
  Topic : String := ""
  Token : String := ""
  Condition : String := ""
  CollapseKey : String := ""
  Priority : String := ""
  ContentAvailable : Bool := false
  MutableContent : Bool := false
  TimeToLive : Option Nat := none
  DryRun : Bool := false
  RestrictedPackageName : String := ""
  Notification : Option Notification := none
  Data : List (String × Value) := []
  Apns : List (String × Value) := []
  Webpush : List (String × Value) := []

/-- The struct `NewMessage`. -/
structure NewMessage where
  Message : Message := {}

/-- The scan of `strings.Count` for a non-empty `sub`: `skip` characters of
the last match are still to be passed over, so that matches do not overlap. -/
def countAux (sub : List Char) : Nat → List Char → Nat
  | _, [] => 0
  | skip + 1, _ :: rest => countAux sub skip rest
  | 0, c :: rest =>
    if sub.isPrefixOf (c :: rest) then 1 + countAux sub (sub.length - 1) rest
    else countAux sub 0 rest

/-- The library function `strings.Count(s, substr)`: the number of
non-overlapping instances of `substr` in `s`, and the number of characters
plus one for an empty `substr`. The code calls it with `"&&"` and `"||"`,
which are ASCII, so that counting over characters and over bytes agree. -/
def stringsCount (s substr : String) : Nat :=
  if substr.length = 0 then s.length + 1 else countAux substr.data 0 s.data

/-- The number `opCnt` computed by `Validate` from the condition. -/
def opCnt (cond : String) : Nat :=
  stringsCount cond "&&" + stringsCount cond "||"

/-- The method `(*NewMessage).Validate`. -/
def Validate (msg : Option NewMessage) : Option GoError :=
  match msg with
  | none => some .ErrInvalidMessage
  | some msg =>
    if msg.Message.Token = "" ∧ msg.Message.Topic = "" ∧
        (msg.Message.Condition = "" ∨ opCnt msg.Message.Condition > 5) then
      some .ErrInvalidTarget
    else
      match msg.Message.TimeToLive with
      | some ttl => if ttl > 2419200 then some .ErrInvalidTimeToLive else none
      | none => none

/-- The number of target selectors (`Token`, `Topic`, `Condition`) that are
not empty. -/
def selectorCount (m : Message) : Nat :=
  (if m.Token = "" then 0 else 1) + (if m.Topic = "" then 0 else 1) +
    (if m.Condition = "" then 0 else 1)

/-- The time-to-live is unset or at most 2,419,200. -/
def ttlInRange (m : Message) : Prop :=
  ∀ ttl, m.TimeToLive = some ttl → ttl ≤ 2419200

/-- The first check of `Validate` lets the message through: `Token` or
`Topic` is not empty, or `Condition` is not empty and has at most 5
operators. -/
def passesTargetCheck (m : Message) : Prop :=
  m.Token ≠ "" ∨ m.Topic ≠ "" ∨ (m.Condition ≠ "" ∧ opCnt m.Condition ≤ 5)

/-- The condition of the test "invalid condition": 7 operators. -/
def conditionSevenOps : String :=
  "'TopicA' in topics && 'TopicB' in topics && 'TopicC' in topics && 'TopicD' in topics && 'TopicE' in topics && 'TopicF' in topics && 'TopicG' in topics && 'TopicH' in topics"

/-- A condition with 6 operators. -/
def conditionSixOps : String := "a && b && c && d && e && f && g"

/-- A message addressed to a topic, with a time-to-live. -/
def topicMessage (ttl : Option Nat) : NewMessage :=
  { Message := { Topic := "test", TimeToLive := ttl } }

/-- A message addressed by a condition only, with a time-to-live. -/
def conditionMessage (cond : String) (ttl : Option Nat) : NewMessage :=
  { Message := { Condition := cond, TimeToLive := ttl } }

/-- A message with a Token, a Topic and a Condition, and a time-to-live. -/
def mixedMessage (token topic cond : String) (ttl : Option Nat) : NewMessage :=
  { Message := { Token := token, Topic := topic, Condition := cond, TimeToLive := ttl } }

/-! ## Responses (`response.go`) -/

/-- The constant `ErrorCodeUnspecifiedError`. -/
def ErrorCodeUnspecifiedError : String := "UNSPECIFIED_ERROR"

/-- The constant `errTypeFCMError`. -/
def errTypeFCMError : String := "type.googleapis.com/google.firebase.fcm.v1.FcmError"

/-- The struct `ResponseErrorFieldViolation`. -/
structure ResponseErrorFieldViolation where
  Field : String := ""
  Description : String := ""
  deriving DecidableEq, Repr

/-- The struct `ResponseErrorDetail`; its field `Type` is `Type_` here. -/
structure ResponseErrorDetail where
  Type_ : String := ""
  ErrorCode : String := ""
  FieldViolations : List ResponseErrorFieldViolation := []
  deriving DecidableEq, Repr

/-- The struct `ResponseError`. -/
structure ResponseError where
  Code : Int := 0
  Message : String := ""
  Status : String := ""
  Details : List ResponseErrorDetail := []
  deriving DecidableEq, Repr

/-- The struct `Response`. -/
structure Response where
  Name : String := ""
  Error : Option ResponseError := none
  deriving DecidableEq, Repr

/-- The loop of `Response.Err` over the details: `errCode` is the value of
the variable when the loop reaches the remaining entries. -/
def errCodeLoop : String → List ResponseErrorDetail → String
  | errCode, [] => errCode
  | _, detail :: rest =>
    if detail.Type_ = errTypeFCMError then detail.ErrorCode
    else errCodeLoop detail.ErrorCode rest

/-- The method `(*Response).Err`. -/
def Response.Err (r : Response) : Option GoError :=
  match r.Error with
  | none => none
  | some e =>
    let errCode := errCodeLoop ErrorCodeUnspecifiedError e.Details
    some (.errorf ("FCM error (" ++ e.Status ++ " | " ++ errCode ++ "): " ++ e.Message))

/-- The response of the test `TestUnmarshalErrorResponse`: one detail of the
type `FcmError` with the code `UNREGISTERED`. -/
def unregisteredResponse : Response :=
  { Error := some
      { Code := 400
        Message := "Invalid argument: registration token missing"
        Status := "INVALID_ARGUMENT"
        Details := [{ Type_ := errTypeFCMError, ErrorCode := "UNREGISTERED" }] } }

/-- The response of the test `TestUnmarshalUnknownErrorResponse`: no detail. -/
def unknownStatusResponse : Response :=
  { Error := some
      { Code := 500
        Message := "Some unexpected error occurred"
        Status := "SOME_UNKNOWN_STATUS" } }

/-- The message that the test `TestUnmarshalUnknownErrorResponse` expects. -/
def expectedUnknownStatusMessage : String :=
  "FCM error (SOME_UNKNOWN_STATUS): UNSPECIFIED_ERROR, Some unexpected error occurred"

/-- The detail type `google.rpc.BadRequest`, which carries field violations
and no error code. -/
def errTypeBadRequest : String := "type.googleapis.com/google.rpc.BadRequest"

/-- An error response whose details are the given ones. -/
def invalidArgumentResponse (details : List ResponseErrorDetail) : Response :=
  { Error := some
      { Code := 400
        Message := "Bad Request"
        Status := "INVALID_ARGUMENT"
        Details := details } }

/-- A detail of the type `google.rpc.BadRequest`, as the service sends it:
without an error code. -/
def badRequestDetail : ResponseErrorDetail :=
  { Type_ := errTypeBadRequest
    FieldViolations := [{ Field := "message.token", Description := "Invalid token" }] }

/-- A detail of another type that carries a code. -/
def apnsDetail : ResponseErrorDetail :=
  { Type_ := "type.googleapis.com/google.firebase.fcm.v1.ApnsError", ErrorCode := "APNS" }

/-- A detail of the type `FcmError` with the given code. -/
def fcmDetail (code : String) : ResponseErrorDetail :=
  { Type_ := errTypeFCMError, ErrorCode := code }

/-! ## The client (`client.go`) -/

/-- A `context.Context`, as far as the client builds one: the background
context, a context handed in by the caller, or a parent with a timeout (a
`time.Duration` in nanoseconds). -/
inductive Context where
  | background : Context
  | caller (id : Nat) : Context
  | withTimeout (parent : Context) (timeout : Int) : Context
  deriving DecidableEq, Repr

/-- An `*http.Request`, as far as `send` fills it. -/
structure Request where
  Method : String
  URL : String
  Header : List (String × String)
  Body : String
  ctx : Context
  deriving DecidableEq, Repr

/-- An `*http.Response`, as far as the client reads it; `Body` is the state
of the body stream, of a type `β` chosen by the transport. -/
structure HTTPResponse (β : Type) where
  StatusCode : Int
  Status : String
  Body : β

/-- The collaborators of the client, none of them code of the repository.
`σ` is the state of the transport and of the remote service. -/
structure Env (σ β : Type) where
  /-- The call `json.Marshal(msg)`. -/
  marshal : Option NewMessage → Except ForeignError String
  /-- The error of `http.NewRequest(method, url, body)`, if any. -/
  newRequest : String → String → Option ForeignError
  /-- The call `c.client.Do(req)`: an error or a response, and the next state
  of the transport. -/
  roundTrip : Request → σ → Except ForeignError (HTTPResponse β) × σ
  /-- The call `json.NewDecoder(body).Decode(&response)` on a zero `Response`:
  an error or the decoded value, and what is left of the stream. -/
  decode : β → Except ForeignError Response × β

/-- The state a call runs in: the state of the transport, and two ghost
fields, the requests handed to the transport so far (oldest first) and the
number of times the retry driver was entered. -/
structure World (σ : Type) where
  net : σ
  requests : List Request
  retryCalls : Nat

/-- The struct `Client`; its `client` field is the transport of `Env`. -/
structure Client where
  endpoint : String
  timeout : Int

/-- The constant `DefaultTimeout`, 30 seconds in nanoseconds. -/
def DefaultTimeout : Int := 30 * 1000000000

/-- The verb `%d` of `fmt` on an `int`. -/
def fmtD (n : Int) : String := toString n

/-- The function `handleFCMResponse`: the error, and what is left of the
body stream. -/
def handleFCMResponse {σ β : Type} (env : Env σ β) (resp : HTTPResponse β) :
    Option GoError × β :=
  if resp.StatusCode = 200 then (none, resp.Body)
  else if resp.StatusCode ≥ 500 then
    (some (.serverError (fmtD resp.StatusCode ++ " error: " ++ resp.Status)), resp.Body)
  else
    match env.decode resp.Body with
    | (.error err, rest) => (some (.wrapError "failed to decode error response: " err), rest)
    | (.ok response, rest) => (response.Err, rest)

/-- The request that `send` builds before it calls the transport. -/
def buildRequest (c : Client) (ctx : Context) (accessToken data : String) : Request :=
  { Method := "POST"
    URL := c.endpoint
    Header := [("Authorization", "Bearer " ++ accessToken),
               ("Content-Type", "application/json")]
    Body := data
    ctx := ctx }

/-- The method `(*Client).send`. -/
def send {σ β : Type} (env : Env σ β) (c : Client) (ctx : Context)
    (accessToken data : String) (w : World σ) :
    Option Response × Option GoError × World σ :=
  match env.newRequest "POST" c.endpoint with
  | some err => (none, some (.foreign err), w)
  | none =>
    let req := buildRequest c ctx accessToken data
    match env.roundTrip req w.net with
    | (.error err, net) =>
      (none, some (.connectionError err.msg),
        { w with net := net, requests := w.requests ++ [req] })
    | (.ok resp, net) =>
      let w1 : World σ := { w with net := net, requests := w.requests ++ [req] }
      match handleFCMResponse env resp with
      | (some err, _) => (none, some err, w1)
      | (none, body) =>
        match env.decode body with
        | (.error err, _) => (none, some (.foreign err), w1)
        | (.ok response, _) => (some response, none, w1)

/-- The method `(*Client).SendWithContext`. -/
def SendWithContext {σ β : Type} (env : Env σ β) (c : Client) (ctx : Context)
    (accessToken : String) (msg : Option NewMessage) (w : World σ) :
    Option Response × Option GoError × World σ :=
  match Validate msg with
  | some err => (none, some err, w)
  | none =>
    match env.marshal msg with
    | .error err => (none, some (.foreign err), w)
    | .ok data => send env c ctx accessToken data w

/-- The method `(*Client).Send`. -/
def Send {σ β : Type} (env : Env σ β) (c : Client) (msg : Option NewMessage)
    (accessToken : String) (w : World σ) :
    Option Response × Option GoError × World σ :=
  SendWithContext env c (.withTimeout .background c.timeout) accessToken msg w

/-- Modelled from the spec: the loop of the retry driver `retry`, whose file
is not among the sources. `n` calls are left and `last` is the error of the
call before; the loop stops at the first call that returns nil or an error
that is not temporary. -/
def retryLoop {S : Type} (fn : S → Option GoError × S) :
    Nat → Option GoError → S → Option GoError × S
  | 0, last, s => (last, s)
  | n + 1, _, s =>
    match fn s with
    | (none, s1) => (none, s1)
    | (some err, s1) =>
      if err.Temporary then retryLoop fn n (some err) s1 else (some err, s1)

/-- Modelled from the spec: the function `retry(fn, attempts)`, whose file is
not among the sources. It "invokes `fn` up to `attempts` times, stopping at
the first call that returns nil or a non-retryable error, and treating an
error's temporary trait as the retry signal"; the error it returns "is exactly
the classified error from the last attempt". With no call at all there is no
error to return. Pauses between calls are not part of the model. -/
def retry {S : Type} (fn : S → Option GoError × S) (attempts : Int) (s : S) :
    Option GoError × S :=
  retryLoop fn attempts.toNat none s

/-- The closure that `SendWithRetryWithContext` hands to `retry`: its state
is the captured variable `resp` and the world. -/
def attempt {σ β : Type} (env : Env σ β) (c : Client) (ctx : Context)
    (accessToken data : String) (st : Option Response × World σ) :
    Option GoError × (Option Response × World σ) :=
  match send env c (.withTimeout ctx c.timeout) accessToken data st.2 with
  | (resp, er, w) => (er, (resp, w))

/-- The method `(*Client).SendWithRetryWithContext`. -/
def SendWithRetryWithContext {σ β : Type} (env : Env σ β) (c : Client) (ctx : Context)
    (msg : Option NewMessage) (accessToken : String) (retryAttempts : Int)
    (w : World σ) : Option Response × Option GoError × World σ :=
  match Validate msg with
  | some err => (none, some err, w)
  | none =>
    match env.marshal msg with
    | .error err => (none, some (.foreign err), w)
    | .ok data =>
      let resp : Option Response := some {}
      match retry (attempt env c ctx accessToken data) retryAttempts
          (resp, { w with retryCalls := w.retryCalls + 1 }) with
      | (some err, (_, w1)) => (none, some err, w1)
      | (none, (resp1, w1)) => (resp1, none, w1)

/-- The method `(*Client).SendWithRetry`. -/
def SendWithRetry {σ β : Type} (env : Env σ β) (c : Client) (msg : Option NewMessage)
    (accessToken : String) (retryAttempts : Int) (w : World σ) :
    Option Response × Option GoError × World σ :=
  SendWithRetryWithContext env c .background msg accessToken retryAttempts w

/-- A response of the service with the given status code, status text and
body. -/
def answer (code : Int) (status body : String) :
    Except ForeignError (HTTPResponse String) :=
  .ok { StatusCode := code, Status := status, Body := body }

/-- The body of a successful answer, `\x7b"name":"projects/p/messages/1"\x7d`. -/
def nameBody : String := "\x7b\"name\":\"projects/p/messages/1\"\x7d"

/-- The body of the test "send_with_retry=failure": a structured error with
the status `INVALID_ARGUMENT`. -/
def errorBody : String :=
  "\x7b\"error\":\x7b\"code\":400,\"message\":\"Bad Request\",\"status\":\"INVALID_ARGUMENT\"\x7d\x7d"

/-- The body of the test "send=invalid-response": a name that is a number. -/
def numberBody : String := "\x7b\"name\": 12345\x7d"

/-- The shape of a result `(*Response, error)`: a response with a nil error,
or a nil response with an error. -/
def WellFormed {σ : Type} (r : Option Response × Option GoError × World σ) : Prop :=
  (r.1 ≠ none ∧ r.2.1 = none) ∨ (r.1 = none ∧ r.2.1 ≠ none)

/-- The state of the transport after it answered `k` calls with the request
`req`, each with a status of 500 or more; `none` when one of these calls
fails or answers with another status. -/
def afterServerErrors {σ β : Type} (env : Env σ β) (req : Request) : Nat → σ → Option σ
  | 0, net => some net
  | k + 1, net =>
    match env.roundTrip req net with
    | (.ok resp, net1) =>
      if resp.StatusCode ≥ 500 then afterServerErrors env req k net1 else none
    | (.error _, _) => none

/-! ## A concrete transport and codec, used to run the model -/

/-- A transport that answers from a script: each call takes the next outcome,
and a call after the last one fails. -/
def scriptedRoundTrip (_ : Request)
    (script : List (Except ForeignError (HTTPResponse String))) :
    Except ForeignError (HTTPResponse String) ×
      List (Except ForeignError (HTTPResponse String)) :=
  match script with
  | [] => (.error ⟨"connection refused", false, false⟩, [])
  | outcome :: rest => (outcome, rest)

/-- What `encoding/json` does on a few bodies: an empty object, an object
with a name, a structured error, a drained stream, and an object with a name
that is a number. -/
def sampleDecode (body : String) : Except ForeignError Response × String :=
  if body = "\x7b\x7d" then (.ok {}, "")
  else if body = "\x7b\"name\":\"projects/p/messages/1\"\x7d" then
    (.ok { Name := "projects/p/messages/1" }, "")
  else if body = errorBody then (.ok (invalidArgumentResponse []), "")
  else if body = "" then (.error ⟨"EOF", false, false⟩, "")
  else
    (.error ⟨"json: cannot unmarshal number into Go struct field .name of type string",
      false, false⟩, "")

/-- The collaborators used to run the model. -/
def sampleEnv : Env (List (Except ForeignError (HTTPResponse String))) String where
  marshal := fun _ => .ok "\x7b\"message\":\x7b\x7d\x7d"
  newRequest := fun _ url => if url = "" then some ⟨"empty url", false, false⟩ else none
  roundTrip := scriptedRoundTrip
  decode := sampleDecode

/-- The client used to run the model. -/
def sampleClient : Client :=
  { endpoint := "https://fcm.googleapis.com/v1/projects/p/messages:send"
    timeout := DefaultTimeout }

/-- A world in which the transport will answer from `script`. -/
def sampleWorld (script : List (Except ForeignError (HTTPResponse String))) :
    World (List (Except ForeignError (HTTPResponse String))) :=
  { net := script, requests := [], retryCalls := 0 }

/-! ## Validation -/

/-- The result of `Validate` on a message that is not nil, by cases. -/
theorem validate_some (m : NewMessage) :
    Validate (some m) =
      if m.Message.Token = "" ∧ m.Message.Topic = "" ∧
          (m.Message.Condition = "" ∨ opCnt m.Message.Condition > 5) then
        some .ErrInvalidTarget
      else
        match m.Message.TimeToLive with
        | some ttl => if ttl > 2419200 then some .ErrInvalidTimeToLive else none
        | none => none := rfl

/-- When the first check lets the message through, its condition is false. -/
theorem not_target_guard {m : Message} (h : passesTargetCheck m) :
    ¬ (m.Token = "" ∧ m.Topic = "" ∧ (m.Condition = "" ∨ opCnt m.Condition > 5)) := by
  rintro ⟨h1, h2, h3⟩
  rcases h with h | h | ⟨h4, h5⟩
  · exact h h1
  · exact h h2
  · rcases h3 with h3 | h3
    · exact h4 h3
    · omega

/-- C1: a message that is not nil, with an empty Token, an empty Topic, and a
Condition that is empty or holds more than 5 operators, is refused by
`Validate` with `ErrInvalidTarget`, whatever its other fields hold. -/
theorem validate_invalid_target (m : NewMessage)
    (hToken : m.Message.Token = "") (hTopic : m.Message.Topic = "")
    (hCond : m.Message.Condition = "" ∨ opCnt m.Message.Condition > 5) :
    Validate (some m) = some .ErrInvalidTarget := by
  rw [validate_some, if_pos ⟨hToken, hTopic, hCond⟩]

/-- C1 at the condition of the test "invalid condition" (7 operators), with a
time-to-live that is out of range as well. -/
theorem validate_invalid_target_witness :
    opCnt conditionSevenOps = 7 ∧
    Validate (some (conditionMessage conditionSevenOps (some 3000000)))
      = some .ErrInvalidTarget :=
  ⟨by decide, validate_invalid_target _ rfl rfl (Or.inr (by decide))⟩

/-- C2 as stated fails: a message whose only selector is a Condition with 6
operators, and whose time-to-live is unset, has exactly one selector and is
refused. -/
theorem validate_one_selector_counterexample :
    selectorCount (conditionMessage conditionSixOps none).Message = 1 ∧
    ttlInRange (conditionMessage conditionSixOps none).Message ∧
    Validate (some (conditionMessage conditionSixOps none)) = some .ErrInvalidTarget :=
  ⟨by decide, (by intro ttl h; cases h), by decide⟩

/-- C2, amended: a message that is not nil, with exactly one selector that is
not empty, at most 5 operators in its Condition, and a time-to-live that is
unset or at most 2,419,200, passes `Validate`. -/
theorem validate_one_selector (m : NewMessage)
    (hOne : selectorCount m.Message = 1)
    (hOps : opCnt m.Message.Condition ≤ 5)
    (hTtl : ttlInRange m.Message) :
    Validate (some m) = none := by
  have hGuard : ¬ (m.Message.Token = "" ∧ m.Message.Topic = "" ∧
      (m.Message.Condition = "" ∨ opCnt m.Message.Condition > 5)) := by
    rintro ⟨h1, h2, h3 | h3⟩
    · simp [selectorCount, h1, h2, h3] at hOne
    · omega
  rw [validate_some, if_neg hGuard]
  cases hT : m.Message.TimeToLive with
  | none => rfl
  | some ttl =>
    have := hTtl ttl hT
    simp only
    rw [if_neg (by omega)]

/-- C2, amended, at the messages of the tests "valid with token" and "valid
with condition". -/
theorem validate_one_selector_witness :
    Validate (some (topicMessage (some 3600))) = none ∧
    Validate (some (conditionMessage "'dogs' in topics || 'cats' in topics" none)) = none :=
  ⟨validate_one_selector _ (by decide) (by decide)
      (by intro ttl h; cases h; decide),
   validate_one_selector _ (by decide) (by decide) (by intro ttl h; cases h)⟩

/-- C3 as stated fails: a message with a Token and a Topic passes `Validate`
with two selectors, and so does a message with a Token and a Condition of 6
operators. -/
theorem validate_invariant_counterexample :
    (Validate (some (mixedMessage "t" "news" "" none)) = none ∧
      selectorCount (mixedMessage "t" "news" "" none).Message = 2) ∧
    (Validate (some (mixedMessage "t" "" conditionSixOps none)) = none ∧
      selectorCount (mixedMessage "t" "" conditionSixOps none).Message = 2 ∧
      opCnt (mixedMessage "t" "" conditionSixOps none).Message.Condition = 6) :=
  ⟨⟨by decide, by decide⟩, ⟨by decide, by decide, by decide⟩⟩

/-- C3, amended: on a message that passes `Validate`, at least one selector
is not empty; when Token and Topic are both empty the Condition is not empty
and holds at most 5 operators; and the time-to-live is unset or at most
2,419,200. -/
theorem validate_invariant (m : NewMessage) (h : Validate (some m) = none) :
    1 ≤ selectorCount m.Message ∧
    (m.Message.Token = "" → m.Message.Topic = "" →
      m.Message.Condition ≠ "" ∧ opCnt m.Message.Condition ≤ 5) ∧
    ttlInRange m.Message := by
  rw [validate_some] at h
  by_cases hGuard : m.Message.Token = "" ∧ m.Message.Topic = "" ∧
      (m.Message.Condition = "" ∨ opCnt m.Message.Condition > 5)
  · rw [if_pos hGuard] at h
    cases h
  · rw [if_neg hGuard] at h
    refine ⟨?_, ?_, ?_⟩
    · unfold selectorCount
      by_cases h1 : m.Message.Token = ""
      · by_cases h2 : m.Message.Topic = ""
        · by_cases h3 : m.Message.Condition = ""
          · exact absurd ⟨h1, h2, Or.inl h3⟩ hGuard
          · rw [if_neg h3]; omega
        · rw [if_neg h2]; omega
      · rw [if_neg h1]; omega
    · intro h1 h2
      constructor
      · intro h3
        exact hGuard ⟨h1, h2, Or.inl h3⟩
      · by_contra h4
        exact hGuard ⟨h1, h2, Or.inr (by omega)⟩
    · intro ttl hT
      rw [hT] at h
      by_contra h5
      simp only at h
      rw [if_pos (by omega)] at h
      cases h

/-- C3, amended, at a message with two selectors and the largest
time-to-live. -/
theorem validate_invariant_witness :
    Validate (some (mixedMessage "t" "news" "" (some 2419200))) = none ∧
    1 ≤ selectorCount (mixedMessage "t" "news" "" (some 2419200)).Message ∧
    ttlInRange (mixedMessage "t" "news" "" (some 2419200)).Message :=
  ⟨by decide,
   (validate_invariant (mixedMessage "t" "news" "" (some 2419200)) (by decide)).1,
   (validate_invariant (mixedMessage "t" "news" "" (some 2419200)) (by decide)).2.2⟩

/-- C4: on a message that is not nil and that the target check lets through,
`Validate` returns `ErrInvalidTimeToLive` exactly when the time-to-live is
set and greater than 2,419,200, and returns nil otherwise; so an unset
time-to-live and the value 2,419,200 are accepted. -/
theorem validate_time_to_live (m : NewMessage) (h : passesTargetCheck m.Message) :
    (Validate (some m) = some .ErrInvalidTimeToLive ↔
      ∃ ttl, m.Message.TimeToLive = some ttl ∧ ttl > 2419200) ∧
    ((¬ ∃ ttl, m.Message.TimeToLive = some ttl ∧ ttl > 2419200) →
      Validate (some m) = none) ∧
    (m.Message.TimeToLive = none → Validate (some m) = none) ∧
    (m.Message.TimeToLive = some 2419200 → Validate (some m) = none) := by
  rw [validate_some, if_neg (not_target_guard h)]
  cases hT : m.Message.TimeToLive with
  | none => simp
  | some ttl =>
    by_cases hBig : ttl > 2419200
    · simp [hBig]
      omega
    · simp only [hBig, if_false]
      simp
      omega

/-- C4 at a message with a Topic: 2,419,201 is refused, 2,419,200 is
accepted. -/
theorem validate_time_to_live_witness :
    passesTargetCheck (topicMessage (some 2419201)).Message ∧
    Validate (some (topicMessage (some 2419201))) = some .ErrInvalidTimeToLive ∧
    Validate (some (topicMessage (some 2419200))) = none :=
  ⟨Or.inr (Or.inl (by decide)),
   (validate_time_to_live (topicMessage (some 2419201))
      (Or.inr (Or.inl (by decide)))).1.2 ⟨2419201, rfl, by decide⟩,
   (validate_time_to_live (topicMessage (some 2419200))
      (Or.inr (Or.inl (by decide)))).2.2.2 rfl⟩

/-! ## Results of the entry points -/

/-- The routine `send` returns a response with a nil error, or a nil response
with an error. -/
theorem send_wellFormed {σ β : Type} (env : Env σ β) (c : Client) (ctx : Context)
    (accessToken data : String) (w : World σ) :
    WellFormed (send env c ctx accessToken data w) := by
  unfold send WellFormed
  split
  · simp
  · dsimp only
    split
    · simp
    · split
      · simp
      · split <;> simp

/-- One turn of the retry loop. -/
theorem retryLoop_succ {S : Type} (fn : S → Option GoError × S) (n : Nat)
    (last : Option GoError) (s : S) :
    retryLoop fn (n + 1) last s =
      match fn s with
      | (none, s1) => (none, s1)
      | (some err, s1) =>
        if err.Temporary then retryLoop fn n (some err) s1 else (some err, s1) := rfl

/-- The retry loop over `attempt` keeps this: when the error is nil, the
captured response is not nil. -/
theorem retryLoop_attempt_response {σ β : Type} (env : Env σ β) (c : Client)
    (ctx : Context) (accessToken data : String) (n : Nat) :
    ∀ (last : Option GoError) (st : Option Response × World σ),
      (last = none → st.1 ≠ none) →
      (retryLoop (attempt env c ctx accessToken data) n last st).1 = none →
      (retryLoop (attempt env c ctx accessToken data) n last st).2.1 ≠ none := by
  induction n with
  | zero =>
    intro last st hInit hNil
    exact hInit hNil
  | succ n ih =>
    intro last st _ hNil
    have hSend := send_wellFormed env c (.withTimeout ctx c.timeout) accessToken data st.2
    generalize hS : send env c (.withTimeout ctx c.timeout) accessToken data st.2 = r
      at hSend
    obtain ⟨resp, er, w1⟩ := r
    have hA : attempt env c ctx accessToken data st = (er, (resp, w1)) := by
      unfold attempt
      rw [hS]
    rw [retryLoop_succ, hA] at hNil ⊢
    unfold WellFormed at hSend
    cases er with
    | none =>
      rcases hSend with ⟨h1, _⟩ | ⟨_, h2⟩
      · exact h1
      · exact absurd rfl h2
    | some err =>
      dsimp only at hNil ⊢
      by_cases hTemp : err.Temporary = true
      · rw [if_pos hTemp] at hNil ⊢
        exact ih (some err) (resp, w1) (fun h => by cases h) hNil
      · rw [if_neg hTemp] at hNil
        cases hNil

/-- The method `SendWithRetryWithContext` returns a response with a nil
error, or a nil response with an error. -/
theorem sendWithRetryWithContext_wellFormed {σ β : Type} (env : Env σ β) (c : Client)
    (ctx : Context) (msg : Option NewMessage) (accessToken : String)
    (retryAttempts : Int) (w : World σ) :
    WellFormed (SendWithRetryWithContext env c ctx msg accessToken retryAttempts w) := by
  unfold SendWithRetryWithContext
  split
  · simp [WellFormed]
  · split
    · simp [WellFormed]
    · rename_i data _
      have hLoop := retryLoop_attempt_response env c ctx accessToken data
        retryAttempts.toNat none
        (some {}, { w with retryCalls := w.retryCalls + 1 }) (fun _ => by simp)
      dsimp only
      unfold retry
      split
      · simp [WellFormed]
      · rename_i resp1 w1 hEq
        rw [hEq] at hLoop
        have := hLoop rfl
        simp [WellFormed]
        exact this

/-- The method `SendWithContext` returns a response with a nil error, or a nil
response with an error. -/
theorem sendWithContext_wellFormed {σ β : Type} (env : Env σ β) (c : Client)
    (ctx : Context) (accessToken : String) (msg : Option NewMessage) (w : World σ) :
    WellFormed (SendWithContext env c ctx accessToken msg w) := by
  unfold SendWithContext
  split
  · simp [WellFormed]
  · split
    · simp [WellFormed]
    · exact send_wellFormed env c ctx accessToken _ w

/-- C5: `send`, `SendWithContext`, `Send`, `SendWithRetryWithContext` and
`SendWithRetry` return a response with a nil error, or a nil response with an
error, on every input and for every transport and codec: never a response
together with an error, never a nil response with a nil error. -/
theorem results_wellFormed {σ β : Type} (env : Env σ β) (c : Client) (ctx : Context)
    (accessToken data : String) (msg : Option NewMessage) (retryAttempts : Int)
    (w : World σ) :
    WellFormed (send env c ctx accessToken data w) ∧
    WellFormed (SendWithContext env c ctx accessToken msg w) ∧
    WellFormed (Send env c msg accessToken w) ∧
    WellFormed (SendWithRetryWithContext env c ctx msg accessToken retryAttempts w) ∧
    WellFormed (SendWithRetry env c msg accessToken retryAttempts w) :=
  ⟨send_wellFormed env c ctx accessToken data w,
   sendWithContext_wellFormed env c ctx accessToken msg w,
   sendWithContext_wellFormed env c _ accessToken msg w,
   sendWithRetryWithContext_wellFormed env c ctx msg accessToken retryAttempts w,
   sendWithRetryWithContext_wellFormed env c _ msg accessToken retryAttempts w⟩

/-- C6: when `Validate` refuses the message, the four entry points return a
nil response and that error, and the world is the one they started in: no
request was handed to the transport and the retry driver was not entered,
whatever the number of attempts. -/
theorem validation_failure_returns_early {σ β : Type} (env : Env σ β) (c : Client)
    (ctx : Context) (accessToken : String) (msg : Option NewMessage)
    (retryAttempts : Int) (w : World σ) (err : GoError)
    (h : Validate msg = some err) :
    SendWithContext env c ctx accessToken msg w = (none, some err, w) ∧
    Send env c msg accessToken w = (none, some err, w) ∧
    SendWithRetryWithContext env c ctx msg accessToken retryAttempts w
      = (none, some err, w) ∧
    SendWithRetry env c msg accessToken retryAttempts w = (none, some err, w) := by
  refine ⟨?_, ?_, ?_, ?_⟩
  · unfold SendWithContext; rw [h]
  · unfold Send SendWithContext; rw [h]
  · unfold SendWithRetryWithContext; rw [h]
  · unfold SendWithRetry SendWithRetryWithContext; rw [h]

/-- C6 at the empty message of the test "send=invalid_message", with a
transport that would answer 200: the answer is still in the script, no request
is recorded and the retry driver was not entered. -/
theorem validation_failure_returns_early_witness :
    Validate (some {}) = some .ErrInvalidTarget ∧
    SendWithRetryWithContext sampleEnv sampleClient .background (some {}) "token" 3
        (sampleWorld [answer 200 "200 OK" nameBody])
      = (none, some .ErrInvalidTarget,
          { net := [answer 200 "200 OK" nameBody], requests := [], retryCalls := 0 }) ∧
    SendWithContext sampleEnv sampleClient .background "token" none
        (sampleWorld [answer 200 "200 OK" nameBody])
      = (none, some .ErrInvalidMessage, sampleWorld [answer 200 "200 OK" nameBody]) :=
  ⟨by decide,
   (validation_failure_returns_early sampleEnv sampleClient .background "token"
      (some {}) 3 (sampleWorld [answer 200 "200 OK" nameBody]) .ErrInvalidTarget
      (by decide)).2.2.1,
   (validation_failure_returns_early sampleEnv sampleClient .background "token"
      none 3 (sampleWorld [answer 200 "200 OK" nameBody]) .ErrInvalidMessage
      (by decide)).1⟩

/-! ## The outcome of one round trip -/

/-- C7: for a message that passes `Validate`, when the round trip answers
status 200 and the body decodes to a response with the name `s` and no error,
`send`, `SendWithContext` and `Send` return that response and a nil error,
after exactly one request. -/
theorem send_success {σ β : Type} (env : Env σ β) (c : Client) (ctx : Context)
    (accessToken : String) (m : NewMessage) (w : World σ) (data status : String)
    (body rest : β) (net : σ) (s : String)
    (hValid : Validate (some m) = none)
    (hData : env.marshal (some m) = .ok data)
    (hReq : env.newRequest "POST" c.endpoint = none)
    (hTrip : env.roundTrip (buildRequest c ctx accessToken data) w.net
      = (.ok { StatusCode := 200, Status := status, Body := body }, net))
    (hBody : env.decode body = (.ok { Name := s, Error := none }, rest)) :
    send env c ctx accessToken data w
      = (some { Name := s, Error := none }, none,
          { w with net := net
                   requests := w.requests ++ [buildRequest c ctx accessToken data] }) ∧
    SendWithContext env c ctx accessToken (some m) w
      = (some { Name := s, Error := none }, none,
          { w with net := net
                   requests := w.requests ++ [buildRequest c ctx accessToken data] }) ∧
    (ctx = .withTimeout .background c.timeout →
      Send env c (some m) accessToken w
        = (some { Name := s, Error := none }, none,
            { w with net := net
                     requests := w.requests ++ [buildRequest c ctx accessToken data] })) := by
  have hSend : send env c ctx accessToken data w
      = (some { Name := s, Error := none }, none,
          { w with net := net
                   requests := w.requests ++ [buildRequest c ctx accessToken data] }) := by
    unfold send
    rw [hReq]
    dsimp only
    rw [hTrip]
    dsimp only
    unfold handleFCMResponse
    rw [if_pos rfl]
    dsimp only
    rw [hBody]
  have hCtx : SendWithContext env c ctx accessToken (some m) w
      = send env c ctx accessToken data w := by
    unfold SendWithContext
    rw [hValid, hData]
  refine ⟨hSend, hCtx.trans hSend, ?_⟩
  intro hEq
  unfold Send
  rw [← hEq]
  exact hCtx.trans hSend

/-- C7 at the body `\x7b"name":"projects/p/messages/1"\x7d`. -/
theorem send_success_witness :
    SendWithContext sampleEnv sampleClient .background "token" (some (topicMessage none))
        (sampleWorld [answer 200 "200 OK" nameBody])
      = (some { Name := "projects/p/messages/1", Error := none }, none,
          { net := []
            requests := [buildRequest sampleClient .background "token"
              "\x7b\"message\":\x7b\x7d\x7d"]
            retryCalls := 0 }) :=
  (send_success sampleEnv sampleClient .background "token" (topicMessage none)
    (sampleWorld [answer 200 "200 OK" nameBody]) "\x7b\"message\":\x7b\x7d\x7d" "200 OK"
    nameBody "" [] "projects/p/messages/1" (by decide) rfl (by decide) rfl
    (by simp [sampleEnv, sampleDecode, nameBody])).2.1

/-- C8: on a status of 500 or more, `handleFCMResponse` returns the
`serverError` whose message is the status code, `" error: "` and the status
text, for every codec and every body, and leaves the body stream as it was;
that error is temporary and is not a timeout. -/
theorem handleFCMResponse_server_error {σ β : Type} (env : Env σ β)
    (resp : HTTPResponse β) (h : resp.StatusCode ≥ 500) :
    handleFCMResponse env resp
      = (some (.serverError (fmtD resp.StatusCode ++ " error: " ++ resp.Status)),
          resp.Body) ∧
    (GoError.serverError (fmtD resp.StatusCode ++ " error: " ++ resp.Status)).Error
      = fmtD resp.StatusCode ++ " error: " ++ resp.Status ∧
    (GoError.serverError (fmtD resp.StatusCode ++ " error: " ++ resp.Status)).Temporary
      = true ∧
    (GoError.serverError (fmtD resp.StatusCode ++ " error: " ++ resp.Status)).Timeout
      = false := by
  refine ⟨?_, rfl, rfl, rfl⟩
  unfold handleFCMResponse
  rw [if_neg (by omega), if_pos h]

/-- C8 at status 503 with a body that holds a structured error, and with a
body that is not JSON. -/
theorem handleFCMResponse_server_error_witness :
    handleFCMResponse sampleEnv
        { StatusCode := 503, Status := "503 Service Unavailable", Body := "\x7b\x7d" }
      = (some (.serverError "503 error: 503 Service Unavailable"), "\x7b\x7d") ∧
    handleFCMResponse sampleEnv
        { StatusCode := 500, Status := "500 Internal Server Error", Body := "<html>" }
      = (some (.serverError "500 error: 500 Internal Server Error"), "<html>") :=
  ⟨(handleFCMResponse_server_error sampleEnv
      { StatusCode := 503, Status := "503 Service Unavailable", Body := "\x7b\x7d" }
      (by decide)).1,
   (handleFCMResponse_server_error sampleEnv
      { StatusCode := 500, Status := "500 Internal Server Error", Body := "<html>" }
      (by decide)).1⟩

/-- On a status that is neither 200 nor 500 or more, when the body decodes to
a response without an error, `handleFCMResponse` returns a nil error. -/
theorem handleFCMResponse_nil_of_no_error {σ β : Type} (env : Env σ β)
    (resp : HTTPResponse β) (r : Response) (rest : β)
    (hOk : resp.StatusCode ≠ 200) (hLow : resp.StatusCode < 500)
    (hBody : env.decode resp.Body = (.ok r, rest)) (hErr : r.Error = none) :
    handleFCMResponse env resp = (none, rest) := by
  unfold handleFCMResponse
  rw [if_neg hOk, if_neg (by omega), hBody]
  simp only [Response.Err, hErr]

/-- C9, the code at the failing input: on status 400 with the body
`\x7b\x7d`, which decodes to a response without an error, `handleFCMResponse`
returns a nil error. -/
theorem handleFCMResponse_nil_on_400 :
    handleFCMResponse sampleEnv
        { StatusCode := 400, Status := "400 Bad Request", Body := "\x7b\x7d" }
      = (none, "") := by
  decide

/-- C10: when the request is built and the round trip fails with an error
`e`, `send` returns a nil response and `connectionError(e.Error())`; the
message of that error is the message of `e`, and it is temporary and a
timeout whatever the traits of `e`. -/
theorem send_connection_error {σ β : Type} (env : Env σ β) (c : Client)
    (ctx : Context) (accessToken data : String) (w : World σ) (e : ForeignError)
    (net : σ)
    (hReq : env.newRequest "POST" c.endpoint = none)
    (hTrip : env.roundTrip (buildRequest c ctx accessToken data) w.net = (.error e, net)) :
    send env c ctx accessToken data w
      = (none, some (.connectionError e.msg),
          { w with net := net
                   requests := w.requests ++ [buildRequest c ctx accessToken data] }) ∧
    (GoError.connectionError e.msg).Error = e.msg ∧
    (GoError.connectionError e.msg).Temporary = true ∧
    (GoError.connectionError e.msg).Timeout = true := by
  refine ⟨?_, rfl, rfl, rfl⟩
  unfold send
  rw [hReq]
  dsimp only
  rw [hTrip]

/-- C10 at a transport that fails with an error that is neither temporary nor
a timeout. -/
theorem send_connection_error_witness :
    send sampleEnv sampleClient .background "token" "data"
        (sampleWorld [.error ⟨"context deadline exceeded", false, false⟩])
      = (none, some (.connectionError "context deadline exceeded"),
          { net := []
            requests := [buildRequest sampleClient .background "token" "data"]
            retryCalls := 0 }) :=
  (send_connection_error sampleEnv sampleClient .background "token" "data"
    (sampleWorld [.error ⟨"context deadline exceeded", false, false⟩])
    ⟨"context deadline exceeded", false, false⟩ [] (by decide) rfl).1

/-! ## The error of a decoded response -/

/-- The method `Err` on a response with an error. -/
theorem err_of_error (r : Response) (e : ResponseError) (h : r.Error = some e) :
    r.Err = some (.errorf ("FCM error (" ++ e.Status ++ " | " ++
      errCodeLoop ErrorCodeUnspecifiedError e.Details ++ "): " ++ e.Message)) := by
  unfold Response.Err
  rw [h]

/-- The loop stops at the first detail of the type `FcmError` and keeps its
code. -/
theorem errCodeLoop_first_fcm (d : ResponseErrorDetail) (post : List ResponseErrorDetail)
    (hd : d.Type_ = errTypeFCMError) :
    ∀ (pre : List ResponseErrorDetail) (errCode : String),
      (∀ x ∈ pre, x.Type_ ≠ errTypeFCMError) →
      errCodeLoop errCode (pre ++ d :: post) = d.ErrorCode := by
  intro pre
  induction pre with
  | nil =>
    intro errCode _
    show errCodeLoop errCode (d :: post) = d.ErrorCode
    unfold errCodeLoop
    rw [if_pos hd]
  | cons x pre ih =>
    intro errCode hPre
    show errCodeLoop errCode (x :: (pre ++ d :: post)) = d.ErrorCode
    unfold errCodeLoop
    rw [if_neg (hPre x (List.mem_cons_self x pre))]
    exact ih x.ErrorCode (fun y hy => hPre y (List.mem_cons_of_mem x hy))

/-- Without a detail of the type `FcmError` the loop ends with the code of
the last detail, or with its starting value when there is no detail. -/
theorem errCodeLoop_no_fcm :
    ∀ (details : List ResponseErrorDetail) (errCode : String),
      (∀ x ∈ details, x.Type_ ≠ errTypeFCMError) →
      errCodeLoop errCode details
        = (details.getLast?.map (fun d => d.ErrorCode)).getD errCode := by
  intro details
  induction details with
  | nil =>
    intro errCode _
    rfl
  | cons x rest ih =>
    intro errCode hNo
    unfold errCodeLoop
    rw [if_neg (hNo x (List.mem_cons_self x rest)),
      ih x.ErrorCode (fun y hy => hNo y (List.mem_cons_of_mem x hy)), List.getLast?_cons]
    cases rest.getLast? <;> rfl

/-- C11 as stated fails: on the response of the test
`TestUnmarshalErrorResponse` the message is not the status, `" | "`, the code,
`": "` and the message of the payload. -/
theorem err_message_counterexample :
    unregisteredResponse.Err.map GoError.Error
      = some "FCM error (INVALID_ARGUMENT | UNREGISTERED): Invalid argument: registration token missing" ∧
    unregisteredResponse.Err.map GoError.Error
      ≠ some ("INVALID_ARGUMENT" ++ " | " ++ "UNREGISTERED" ++ ": " ++
          "Invalid argument: registration token missing") := by
  constructor <;> decide

/-- C11, amended: on a response with an error, `Err` returns an error whose
message is `"FCM error ("`, the status of the payload, `" | "`, the code that
the loop selects, `"): "` and the message of the payload. -/
theorem err_message (r : Response) (e : ResponseError) (h : r.Error = some e) :
    ∃ err, r.Err = some err ∧
      err.Error = "FCM error (" ++ e.Status ++ " | " ++
        errCodeLoop ErrorCodeUnspecifiedError e.Details ++ "): " ++ e.Message :=
  ⟨_, err_of_error r e h, rfl⟩

/-- C11, amended, at the response of the test `TestUnmarshalErrorResponse`. -/
theorem err_message_witness :
    ∃ err, unregisteredResponse.Err = some err ∧
      err.Error = "FCM error (" ++ "INVALID_ARGUMENT" ++ " | " ++
        errCodeLoop ErrorCodeUnspecifiedError [fcmDetail "UNREGISTERED"] ++ "): " ++
        "Invalid argument: registration token missing" :=
  err_message unregisteredResponse _ rfl

/-- C12, the code at the failing input: on the response of the test
`TestUnmarshalUnknownErrorResponse` the message of `Err` is not the one the
test expects. -/
theorem err_unknown_status_message :
    unknownStatusResponse.Err.map GoError.Error
      = some "FCM error (SOME_UNKNOWN_STATUS | UNSPECIFIED_ERROR): Some unexpected error occurred" ∧
    unknownStatusResponse.Err.map GoError.Error ≠ some expectedUnknownStatusMessage := by
  constructor <;> decide

/-- C13: on a response with an error whose details hold an entry of the type
`FcmError`, the code that `Err` renders is the code of the first such entry,
whatever entries of other types stand before it and whatever entries follow;
the message holds that code. -/
theorem err_code_first_fcm (r : Response) (e : ResponseError)
    (pre post : List ResponseErrorDetail) (d : ResponseErrorDetail)
    (hE : r.Error = some e) (hDetails : e.Details = pre ++ d :: post)
    (hPre : ∀ x ∈ pre, x.Type_ ≠ errTypeFCMError) (hd : d.Type_ = errTypeFCMError) :
    errCodeLoop ErrorCodeUnspecifiedError e.Details = d.ErrorCode ∧
    r.Err = some (.errorf ("FCM error (" ++ e.Status ++ " | " ++ d.ErrorCode ++ "): " ++
      e.Message)) ∧
    ∃ err before after, r.Err = some err ∧ err.Error = before ++ d.ErrorCode ++ after := by
  have hCode : errCodeLoop ErrorCodeUnspecifiedError e.Details = d.ErrorCode := by
    rw [hDetails]
    exact errCodeLoop_first_fcm d post hd pre _ hPre
  have hErr := err_of_error r e hE
  rw [hCode] at hErr
  refine ⟨hCode, hErr, _, "FCM error (" ++ e.Status ++ " | ", "): " ++ e.Message, hErr, ?_⟩
  show _ = _
  simp [GoError.Error, String.append_assoc]

/-- C13 at details where an entry of another type with a code comes first and
a second `FcmError` entry comes last: the code is `UNREGISTERED`. -/
theorem err_code_first_fcm_witness :
    (invalidArgumentResponse
        [apnsDetail, fcmDetail "UNREGISTERED", badRequestDetail, fcmDetail "QUOTA_EXCEEDED"]).Err
      = some (.errorf "FCM error (INVALID_ARGUMENT | UNREGISTERED): Bad Request") :=
  (err_code_first_fcm
    (invalidArgumentResponse
      [apnsDetail, fcmDetail "UNREGISTERED", badRequestDetail, fcmDetail "QUOTA_EXCEEDED"])
    _ [apnsDetail] [badRequestDetail, fcmDetail "QUOTA_EXCEEDED"] (fcmDetail "UNREGISTERED")
    rfl rfl (by decide) rfl).2.1

/-- C14 as stated fails: on details that hold one entry of the type
`google.rpc.BadRequest` and none of the type `FcmError`, the code that `Err`
renders is the empty string, not `UNSPECIFIED_ERROR`. -/
theorem err_code_unspecified_counterexample :
    (∀ x ∈ [badRequestDetail], x.Type_ ≠ errTypeFCMError) ∧
    errCodeLoop ErrorCodeUnspecifiedError [badRequestDetail] = "" ∧
    (invalidArgumentResponse [badRequestDetail]).Err
      = some (.errorf "FCM error (INVALID_ARGUMENT | ): Bad Request") ∧
    (invalidArgumentResponse [badRequestDetail]).Err
      ≠ some (.errorf "FCM error (INVALID_ARGUMENT | UNSPECIFIED_ERROR): Bad Request") := by
  refine ⟨?_, ?_, ?_, ?_⟩ <;> decide

/-- C14, amended: on a response with an error and no detail, the code that
`Err` renders is `UNSPECIFIED_ERROR`. -/
theorem err_code_no_detail (r : Response) (e : ResponseError)
    (hE : r.Error = some e) (hDetails : e.Details = []) :
    errCodeLoop ErrorCodeUnspecifiedError e.Details = "UNSPECIFIED_ERROR" ∧
    r.Err = some (.errorf ("FCM error (" ++ e.Status ++ " | " ++ "UNSPECIFIED_ERROR" ++
      "): " ++ e.Message)) := by
  rw [err_of_error r e hE, hDetails]
  exact ⟨rfl, rfl⟩

/-- C14, amended, at a response with the status `INVALID_ARGUMENT` and no
detail. -/
theorem err_code_no_detail_witness :
    (invalidArgumentResponse []).Err
      = some (.errorf ("FCM error (" ++ "INVALID_ARGUMENT" ++ " | " ++ "UNSPECIFIED_ERROR" ++
          "): " ++ "Bad Request")) :=
  (err_code_no_detail (invalidArgumentResponse []) _ rfl rfl).2

/-- C15: on a response with an error whose details are not empty and hold no
entry of the type `FcmError`, the code that `Err` renders is the code of the
last detail, which may be empty; when the first detail has another code, the
code rendered is not that of the first detail. -/
theorem err_code_last_detail (r : Response) (e : ResponseError)
    (hE : r.Error = some e) (hNe : e.Details ≠ [])
    (hNo : ∀ x ∈ e.Details, x.Type_ ≠ errTypeFCMError) :
    errCodeLoop ErrorCodeUnspecifiedError e.Details = (e.Details.getLast hNe).ErrorCode ∧
    r.Err = some (.errorf ("FCM error (" ++ e.Status ++ " | " ++
      (e.Details.getLast hNe).ErrorCode ++ "): " ++ e.Message)) ∧
    ((e.Details.head hNe).ErrorCode ≠ (e.Details.getLast hNe).ErrorCode →
      errCodeLoop ErrorCodeUnspecifiedError e.Details ≠ (e.Details.head hNe).ErrorCode) := by
  have hCode : errCodeLoop ErrorCodeUnspecifiedError e.Details
      = (e.Details.getLast hNe).ErrorCode := by
    rw [errCodeLoop_no_fcm e.Details _ hNo, List.getLast?_eq_getLast e.Details hNe]
    rfl
  have hErr := err_of_error r e hE
  rw [hCode] at hErr
  refine ⟨hCode, hErr, ?_⟩
  intro hDiff hEq
  exact hDiff (hEq.symm.trans hCode)

/-- C15 at details of two other types, the first with the code `APNS` and the
last without a code: the code rendered is empty. -/
theorem err_code_last_detail_witness :
    (invalidArgumentResponse [apnsDetail, badRequestDetail]).Err
      = some (.errorf "FCM error (INVALID_ARGUMENT | ): Bad Request") ∧
    errCodeLoop ErrorCodeUnspecifiedError [apnsDetail, badRequestDetail]
      ≠ apnsDetail.ErrorCode :=
  ⟨(err_code_last_detail (invalidArgumentResponse [apnsDetail, badRequestDetail]) _ rfl
      (by decide) (by decide)).2.1,
   (err_code_last_detail (invalidArgumentResponse [apnsDetail, badRequestDetail]) _ rfl
      (by decide) (by decide)).2.2 (by decide)⟩

/-! ## The retry loop -/

/-- The routine `send` once the request is built and the transport has
answered. -/
theorem send_of_answer {σ β : Type} (env : Env σ β) (c : Client) (ctx : Context)
    (accessToken data : String) (w : World σ) (resp : HTTPResponse β) (net : σ)
    (hReq : env.newRequest "POST" c.endpoint = none)
    (hTrip : env.roundTrip (buildRequest c ctx accessToken data) w.net = (.ok resp, net)) :
    send env c ctx accessToken data w =
      match handleFCMResponse env resp with
      | (some err, _) =>
        (none, some err,
          { w with net := net
                   requests := w.requests ++ [buildRequest c ctx accessToken data] })
      | (none, body) =>
        match env.decode body with
        | (.error err, _) =>
          (none, some (.foreign err),
            { w with net := net
                     requests := w.requests ++ [buildRequest c ctx accessToken data] })
        | (.ok response, _) =>
          (some response, none,
            { w with net := net
                     requests := w.requests ++ [buildRequest c ctx accessToken data] }) := by
  unfold send
  rw [hReq]
  dsimp only
  rw [hTrip]

/-- The routine `send` on an answer with a status of 500 or more. -/
theorem send_server_error {σ β : Type} (env : Env σ β) (c : Client) (ctx : Context)
    (accessToken data : String) (w : World σ) (resp : HTTPResponse β) (net : σ)
    (hReq : env.newRequest "POST" c.endpoint = none)
    (hTrip : env.roundTrip (buildRequest c ctx accessToken data) w.net = (.ok resp, net))
    (hStatus : resp.StatusCode ≥ 500) :
    send env c ctx accessToken data w =
      (none, some (.serverError (fmtD resp.StatusCode ++ " error: " ++ resp.Status)),
        { w with net := net
                 requests := w.requests ++ [buildRequest c ctx accessToken data] }) := by
  rw [send_of_answer env c ctx accessToken data w resp net hReq hTrip]
  unfold handleFCMResponse
  rw [if_neg (by omega), if_pos hStatus]

/-- The method `SendWithRetryWithContext` once the message is validated and
marshalled, from the result of the retry driver. -/
theorem sendWithRetryWithContext_of_retry {σ β : Type} (env : Env σ β) (c : Client)
    (ctx : Context) (m : NewMessage) (accessToken : String) (retryAttempts : Int)
    (w : World σ) (data : String) (er : Option GoError) (resp : Option Response)
    (w1 : World σ)
    (hValid : Validate (some m) = none) (hData : env.marshal (some m) = .ok data)
    (hRetry : retry (attempt env c ctx accessToken data) retryAttempts
        (some {}, { w with retryCalls := w.retryCalls + 1 }) = (er, (resp, w1))) :
    SendWithRetryWithContext env c ctx (some m) accessToken retryAttempts w =
      (if er.isSome then none else resp, er, w1) := by
  unfold SendWithRetryWithContext
  rw [hValid, hData]
  dsimp only
  rw [hRetry]
  cases er <;> rfl

/-- A turn of the retry loop does not read the error of the call before nor
the captured response. -/
theorem retryLoop_attempt_fresh {σ β : Type} (env : Env σ β) (c : Client)
    (ctx : Context) (accessToken data : String) (j : Nat) (last : Option GoError)
    (resp : Option Response) (w : World σ) :
    retryLoop (attempt env c ctx accessToken data) (j + 1) last (resp, w)
      = retryLoop (attempt env c ctx accessToken data) (j + 1) none (none, w) := by
  rw [retryLoop_succ, retryLoop_succ]
  rfl

/-- The retry loop stops after its first call when that call returns an error
that is not temporary. -/
theorem retryLoop_stops {σ β : Type} (env : Env σ β) (c : Client) (ctx : Context)
    (accessToken data : String) (j : Nat) (last : Option GoError)
    (resp : Option Response) (w w1 : World σ) (err : GoError)
    (hSend : send env c (.withTimeout ctx c.timeout) accessToken data w
      = (none, some err, w1))
    (hTemp : err.Temporary = false) :
    retryLoop (attempt env c ctx accessToken data) (j + 1) last (resp, w)
      = (some err, (none, w1)) := by
  have hA : attempt env c ctx accessToken data (resp, w) = (some err, (none, w1)) := by
    unfold attempt
    dsimp only
    rw [hSend]
  rw [retryLoop_succ, hA]
  dsimp only
  rw [if_neg (by simp [hTemp])]

/-- After `k` answers with a status of 500 or more, the retry loop goes on
from the state that the transport has reached, with `k` more requests on
record. -/
theorem retryLoop_after_server_errors {σ β : Type} (env : Env σ β) (c : Client)
    (ctx : Context) (accessToken data : String)
    (hReq : env.newRequest "POST" c.endpoint = none) (j : Nat) (netK : σ) :
    ∀ (k : Nat) (net : σ) (last : Option GoError) (resp : Option Response)
      (requests : List Request) (retryCalls : Nat),
      afterServerErrors env (buildRequest c (.withTimeout ctx c.timeout) accessToken data)
        k net = some netK →
      retryLoop (attempt env c ctx accessToken data) (k + (j + 1)) last
          (resp, { net := net, requests := requests, retryCalls := retryCalls })
        = retryLoop (attempt env c ctx accessToken data) (j + 1) none
          (none,
            { net := netK
              requests := requests ++ List.replicate k
                (buildRequest c (.withTimeout ctx c.timeout) accessToken data)
              retryCalls := retryCalls }) := by
  intro k
  induction k with
  | zero =>
    intro net last resp requests retryCalls hRun
    unfold afterServerErrors at hRun
    cases hRun
    rw [Nat.zero_add, List.replicate_zero, List.append_nil]
    exact retryLoop_attempt_fresh env c ctx accessToken data j last resp _
  | succ k ih =>
    intro net last resp requests retryCalls hRun
    unfold afterServerErrors at hRun
    rcases hTrip : env.roundTrip
        (buildRequest c (.withTimeout ctx c.timeout) accessToken data) net
      with ⟨outcome, net1⟩
    rw [hTrip] at hRun
    cases outcome with
    | error e => cases hRun
    | ok answer =>
      dsimp only at hRun
      by_cases hStatus : answer.StatusCode ≥ 500
      · rw [if_pos hStatus] at hRun
        have hSend := send_server_error env c (.withTimeout ctx c.timeout) accessToken data
          { net := net, requests := requests, retryCalls := retryCalls } answer net1 hReq
          hTrip hStatus
        have hA : attempt env c ctx accessToken data
            (resp, { net := net, requests := requests, retryCalls := retryCalls })
            = (some (.serverError (fmtD answer.StatusCode ++ " error: " ++ answer.Status)),
                (none,
                  { net := net1
                    requests := requests ++
                      [buildRequest c (.withTimeout ctx c.timeout) accessToken data]
                    retryCalls := retryCalls })) := by
          unfold attempt
          dsimp only
          rw [hSend]
        have hStep : k + 1 + (j + 1) = (k + (j + 1)) + 1 := by omega
        have hTemp : (GoError.serverError
            (fmtD answer.StatusCode ++ " error: " ++ answer.Status)).Temporary = true := rfl
        rw [hStep, retryLoop_succ, hA]
        dsimp only
        rw [if_pos hTemp, ih net1 _ none _ retryCalls hRun, List.replicate_succ,
          List.append_assoc]
        rfl
      · rw [if_neg hStatus] at hRun
        cases hRun

/-- C16: with the retry driver of the spec, for a message that passes
`Validate` and at least one attempt, when the first answer is a 4xx status
with a body that decodes to a response with an error, a 4xx status with a
body that does not decode, or a status 200 with a body whose decoding fails
with an error that is not temporary, `SendWithRetryWithContext` returns a nil
response and that error after exactly one request: none of these errors is
temporary. -/
theorem retry_stops_on_terminal_error {σ β : Type} (env : Env σ β) (c : Client)
    (ctx : Context) (m : NewMessage) (accessToken : String) (maxAttempts : Int)
    (w : World σ) (data : String) (resp : HTTPResponse β) (net : σ)
    (hValid : Validate (some m) = none) (hData : env.marshal (some m) = .ok data)
    (hReq : env.newRequest "POST" c.endpoint = none)
    (hAttempts : 1 ≤ maxAttempts)
    (hTrip : env.roundTrip (buildRequest c (.withTimeout ctx c.timeout) accessToken data)
      w.net = (.ok resp, net)) :
    (∀ (r : Response) (e : ResponseError) (rest : β),
      400 ≤ resp.StatusCode → resp.StatusCode < 500 →
      env.decode resp.Body = (.ok r, rest) → r.Error = some e →
      ∃ err, r.Err = some err ∧ err.Temporary = false ∧
        SendWithRetryWithContext env c ctx (some m) accessToken maxAttempts w
          = (none, some err,
              { net := net
                requests := w.requests ++
                  [buildRequest c (.withTimeout ctx c.timeout) accessToken data]
                retryCalls := w.retryCalls + 1 })) ∧
    (∀ (e : ForeignError) (rest : β),
      400 ≤ resp.StatusCode → resp.StatusCode < 500 →
      env.decode resp.Body = (.error e, rest) →
      (GoError.wrapError "failed to decode error response: " e).Temporary = false ∧
      SendWithRetryWithContext env c ctx (some m) accessToken maxAttempts w
        = (none, some (.wrapError "failed to decode error response: " e),
            { net := net
              requests := w.requests ++
                [buildRequest c (.withTimeout ctx c.timeout) accessToken data]
              retryCalls := w.retryCalls + 1 })) ∧
    (∀ (e : ForeignError) (rest : β),
      resp.StatusCode = 200 → env.decode resp.Body = (.error e, rest) →
      e.temporary = false →
      (GoError.foreign e).Temporary = false ∧
      SendWithRetryWithContext env c ctx (some m) accessToken maxAttempts w
        = (none, some (.foreign e),
            { net := net
              requests := w.requests ++
                [buildRequest c (.withTimeout ctx c.timeout) accessToken data]
              retryCalls := w.retryCalls + 1 })) := by
  obtain ⟨j, hj⟩ : ∃ j, maxAttempts.toNat = j + 1 := ⟨maxAttempts.toNat - 1, by omega⟩
  have hStop : ∀ err : GoError, err.Temporary = false →
      send env c (.withTimeout ctx c.timeout) accessToken data
          { w with retryCalls := w.retryCalls + 1 }
        = (none, some err,
            { net := net
              requests := w.requests ++
                [buildRequest c (.withTimeout ctx c.timeout) accessToken data]
              retryCalls := w.retryCalls + 1 }) →
      SendWithRetryWithContext env c ctx (some m) accessToken maxAttempts w
        = (none, some err,
            { net := net
              requests := w.requests ++
                [buildRequest c (.withTimeout ctx c.timeout) accessToken data]
              retryCalls := w.retryCalls + 1 }) := by
    intro err hTemp hSend
    have hRetry : retry (attempt env c ctx accessToken data) maxAttempts
        (some {}, { w with retryCalls := w.retryCalls + 1 })
        = (some err, (none,
            { net := net
              requests := w.requests ++
                [buildRequest c (.withTimeout ctx c.timeout) accessToken data]
              retryCalls := w.retryCalls + 1 })) := by
      unfold retry
      rw [hj]
      exact retryLoop_stops env c ctx accessToken data j none _ _ _ err hSend hTemp
    rw [sendWithRetryWithContext_of_retry env c ctx m accessToken maxAttempts w data _ _ _
      hValid hData hRetry]
    rfl
  have hSendEq := send_of_answer env c (.withTimeout ctx c.timeout) accessToken data
    { w with retryCalls := w.retryCalls + 1 } resp net hReq hTrip
  refine ⟨?_, ?_, ?_⟩
  · intro r e rest hLow hHigh hBody hErr
    have hE := err_of_error r e hErr
    refine ⟨_, hE, rfl, hStop _ rfl ?_⟩
    rw [hSendEq]
    unfold handleFCMResponse
    rw [if_neg (by omega), if_neg (by omega), hBody]
    dsimp only
    rw [hE]
  · intro e rest hLow hHigh hBody
    refine ⟨rfl, hStop _ rfl ?_⟩
    rw [hSendEq]
    unfold handleFCMResponse
    rw [if_neg (by omega), if_neg (by omega), hBody]
  · intro e rest hOk hBody hTemp
    refine ⟨hTemp, hStop _ hTemp ?_⟩
    rw [hSendEq]
    unfold handleFCMResponse
    rw [if_pos hOk]
    dsimp only
    rw [hBody]

/-- C16 at the answers of the tests "send_with_retry=failure" (status 400
with a structured error, 2 attempts) and "send=invalid-response" (status 200
with a name that is a number, 3 attempts): one request, and the answer that
follows in the script is never asked for. -/
theorem retry_stops_on_terminal_error_witness :
    SendWithRetryWithContext sampleEnv sampleClient .background (some (topicMessage none))
        "token" 2
        (sampleWorld [answer 400 "400 Bad Request" errorBody, answer 200 "200 OK" nameBody])
      = (none,
          some (.errorf "FCM error (INVALID_ARGUMENT | UNSPECIFIED_ERROR): Bad Request"),
          { net := [answer 200 "200 OK" nameBody]
            requests := [buildRequest sampleClient
              (.withTimeout .background sampleClient.timeout) "token"
              "\x7b\"message\":\x7b\x7d\x7d"]
            retryCalls := 1 }) ∧
    SendWithRetryWithContext sampleEnv sampleClient .background (some (topicMessage none))
        "token" 3
        (sampleWorld [answer 200 "200 OK" numberBody, answer 200 "200 OK" nameBody])
      = (none,
          some (.foreign
            ⟨"json: cannot unmarshal number into Go struct field .name of type string",
              false, false⟩),
          { net := [answer 200 "200 OK" nameBody]
            requests := [buildRequest sampleClient
              (.withTimeout .background sampleClient.timeout) "token"
              "\x7b\"message\":\x7b\x7d\x7d"]
            retryCalls := 1 }) := by
  constructor
  · obtain ⟨err, hErr, _, hSend⟩ :=
      (retry_stops_on_terminal_error sampleEnv sampleClient .background (topicMessage none)
        "token" 2
        (sampleWorld [answer 400 "400 Bad Request" errorBody, answer 200 "200 OK" nameBody])
        "\x7b\"message\":\x7b\x7d\x7d"
        { StatusCode := 400, Status := "400 Bad Request", Body := errorBody }
        [answer 200 "200 OK" nameBody] (by decide) rfl (by decide) (by decide) rfl).1
        (invalidArgumentResponse []) _ "" (by decide) (by decide)
        (by simp [sampleEnv, sampleDecode, errorBody]) rfl
    have hCode : err = .errorf "FCM error (INVALID_ARGUMENT | UNSPECIFIED_ERROR): Bad Request" := by
      have h : (invalidArgumentResponse []).Err
          = some (.errorf "FCM error (INVALID_ARGUMENT | UNSPECIFIED_ERROR): Bad Request") := by
        decide
      rw [h] at hErr
      exact (Option.some.inj hErr).symm
    rw [← hCode]
    exact hSend
  · exact ((retry_stops_on_terminal_error sampleEnv sampleClient .background
        (topicMessage none) "token" 3
        (sampleWorld [answer 200 "200 OK" numberBody, answer 200 "200 OK" nameBody])
        "\x7b\"message\":\x7b\x7d\x7d"
        { StatusCode := 200, Status := "200 OK", Body := numberBody }
        [answer 200 "200 OK" nameBody] (by decide) rfl (by decide) (by decide) rfl).2.2
        ⟨"json: cannot unmarshal number into Go struct field .name of type string",
          false, false⟩ ""
        rfl (by simp [sampleEnv, sampleDecode, numberBody, errorBody]) rfl).2

/-- C17: with the retry driver of the spec, for a message that passes
`Validate` and more than `k` attempts, when the transport answers `k` times
with a status of 500 or more and then with status 200 and a body that decodes
to a response with the name `s` and no error, `SendWithRetryWithContext`
returns that response with a nil error after exactly `k + 1` requests, each
made in the state that the call before left. -/
theorem retry_succeeds_after_server_errors {σ β : Type} (env : Env σ β) (c : Client)
    (ctx : Context) (m : NewMessage) (accessToken : String) (maxAttempts : Int)
    (w : World σ) (data status : String) (k : Nat) (netK netEnd : σ) (body rest : β)
    (s : String)
    (hValid : Validate (some m) = none) (hData : env.marshal (some m) = .ok data)
    (hReq : env.newRequest "POST" c.endpoint = none)
    (hAttempts : (k : Int) < maxAttempts)
    (hErrors : afterServerErrors env
      (buildRequest c (.withTimeout ctx c.timeout) accessToken data) k w.net = some netK)
    (hTrip : env.roundTrip (buildRequest c (.withTimeout ctx c.timeout) accessToken data)
      netK = (.ok { StatusCode := 200, Status := status, Body := body }, netEnd))
    (hBody : env.decode body = (.ok { Name := s, Error := none }, rest)) :
    SendWithRetryWithContext env c ctx (some m) accessToken maxAttempts w
      = (some { Name := s, Error := none }, none,
          { net := netEnd
            requests := w.requests ++ List.replicate (k + 1)
              (buildRequest c (.withTimeout ctx c.timeout) accessToken data)
            retryCalls := w.retryCalls + 1 }) := by
  obtain ⟨j, hj⟩ : ∃ j, maxAttempts.toNat = k + (j + 1) :=
    ⟨maxAttempts.toNat - k - 1, by omega⟩
  have hSend : send env c (.withTimeout ctx c.timeout) accessToken data
      { net := netK
        requests := w.requests ++ List.replicate k
          (buildRequest c (.withTimeout ctx c.timeout) accessToken data)
        retryCalls := w.retryCalls + 1 }
      = (some { Name := s, Error := none }, none,
          { net := netEnd
            requests := w.requests ++ List.replicate (k + 1)
              (buildRequest c (.withTimeout ctx c.timeout) accessToken data)
            retryCalls := w.retryCalls + 1 }) := by
    rw [send_of_answer env c (.withTimeout ctx c.timeout) accessToken data _ _ netEnd hReq
      hTrip]
    unfold handleFCMResponse
    rw [if_pos rfl]
    dsimp only
    rw [hBody, List.replicate_succ', List.append_assoc]
  have hRetry : retry (attempt env c ctx accessToken data) maxAttempts
      (some {}, { w with retryCalls := w.retryCalls + 1 })
      = (none, (some { Name := s, Error := none },
          { net := netEnd
            requests := w.requests ++ List.replicate (k + 1)
              (buildRequest c (.withTimeout ctx c.timeout) accessToken data)
            retryCalls := w.retryCalls + 1 })) := by
    unfold retry
    rw [hj, retryLoop_after_server_errors env c ctx accessToken data hReq j netK k w.net
      none _ w.requests (w.retryCalls + 1) hErrors, retryLoop_succ]
    unfold attempt
    dsimp only
    rw [hSend]
  rw [sendWithRetryWithContext_of_retry env c ctx m accessToken maxAttempts w data _ _ _
    hValid hData hRetry]
  rfl

/-- C17 at the answers of the test "send_with_retry=success_retry": two
answers 500, then 200, with 4 attempts, give 3 requests and the name of the
last body. -/
theorem retry_succeeds_after_server_errors_witness :
    SendWithRetryWithContext sampleEnv sampleClient .background (some (topicMessage none))
        "token" 4
        (sampleWorld [answer 500 "500 Internal Server Error" errorBody,
          answer 500 "500 Internal Server Error" errorBody,
          answer 200 "200 OK" nameBody])
      = (some { Name := "projects/p/messages/1", Error := none }, none,
          { net := []
            requests := List.replicate 3 (buildRequest sampleClient
              (.withTimeout .background sampleClient.timeout) "token"
              "\x7b\"message\":\x7b\x7d\x7d")
            retryCalls := 1 }) :=
  retry_succeeds_after_server_errors sampleEnv sampleClient .background (topicMessage none)
    "token" 4
    (sampleWorld [answer 500 "500 Internal Server Error" errorBody,
      answer 500 "500 Internal Server Error" errorBody,
      answer 200 "200 OK" nameBody])
    "\x7b\"message\":\x7b\x7d\x7d" "200 OK" 2 [answer 200 "200 OK" nameBody] [] nameBody ""
    "projects/p/messages/1" (by decide) rfl (by decide) (by decide) rfl rfl
    (by simp [sampleEnv, sampleDecode, nameBody])

/-- C18: with the retry driver of the spec, for a message that passes
`Validate` and `k + 1` attempts, when the transport answers every one of the
`k + 1` calls with a status of 500 or more, `SendWithRetryWithContext` makes
exactly `k + 1` requests and returns a nil response and the `serverError`
built from the status code and status text of the last answer. -/
theorem retry_exhausted_returns_last_error {σ β : Type} (env : Env σ β) (c : Client)
    (ctx : Context) (m : NewMessage) (accessToken : String) (maxAttempts : Int)
    (w : World σ) (data : String) (k : Nat) (netK netEnd : σ) (resp : HTTPResponse β)
    (hValid : Validate (some m) = none) (hData : env.marshal (some m) = .ok data)
    (hReq : env.newRequest "POST" c.endpoint = none)
    (hAttempts : maxAttempts = (k : Int) + 1)
    (hErrors : afterServerErrors env
      (buildRequest c (.withTimeout ctx c.timeout) accessToken data) k w.net = some netK)
    (hTrip : env.roundTrip (buildRequest c (.withTimeout ctx c.timeout) accessToken data)
      netK = (.ok resp, netEnd))
    (hStatus : resp.StatusCode ≥ 500) :
    SendWithRetryWithContext env c ctx (some m) accessToken maxAttempts w
      = (none, some (.serverError (fmtD resp.StatusCode ++ " error: " ++ resp.Status)),
          { net := netEnd
            requests := w.requests ++ List.replicate (k + 1)
              (buildRequest c (.withTimeout ctx c.timeout) accessToken data)
            retryCalls := w.retryCalls + 1 }) := by
  have hj : maxAttempts.toNat = k + (0 + 1) := by omega
  have hSend := send_server_error env c (.withTimeout ctx c.timeout) accessToken data
    { net := netK
      requests := w.requests ++ List.replicate k
        (buildRequest c (.withTimeout ctx c.timeout) accessToken data)
      retryCalls := w.retryCalls + 1 } resp netEnd hReq hTrip hStatus
  have hTemp : (GoError.serverError
      (fmtD resp.StatusCode ++ " error: " ++ resp.Status)).Temporary = true := rfl
  have hRetry : retry (attempt env c ctx accessToken data) maxAttempts
      (some {}, { w with retryCalls := w.retryCalls + 1 })
      = (some (.serverError (fmtD resp.StatusCode ++ " error: " ++ resp.Status)),
          (none,
            { net := netEnd
              requests := w.requests ++ List.replicate (k + 1)
                (buildRequest c (.withTimeout ctx c.timeout) accessToken data)
              retryCalls := w.retryCalls + 1 })) := by
    unfold retry
    rw [hj, retryLoop_after_server_errors env c ctx accessToken data hReq 0 netK k w.net
      none _ w.requests (w.retryCalls + 1) hErrors, retryLoop_succ]
    unfold attempt
    dsimp only
    rw [hSend]
    dsimp only
    rw [if_pos hTemp, List.replicate_succ', List.append_assoc]
    rfl
  rw [sendWithRetryWithContext_of_retry env c ctx m accessToken maxAttempts w data _ _ _
    hValid hData hRetry]
  rfl

/-- C18 at three answers with 3 attempts, the last with status 503: three
requests, and the error of the last answer. -/
theorem retry_exhausted_returns_last_error_witness :
    SendWithRetryWithContext sampleEnv sampleClient .background (some (topicMessage none))
        "token" 3
        (sampleWorld [answer 500 "500 Internal Server Error" errorBody,
          answer 502 "502 Bad Gateway" "<html>",
          answer 503 "503 Service Unavailable" ""])
      = (none, some (.serverError "503 error: 503 Service Unavailable"),
          { net := []
            requests := List.replicate 3 (buildRequest sampleClient
              (.withTimeout .background sampleClient.timeout) "token"
              "\x7b\"message\":\x7b\x7d\x7d")
            retryCalls := 1 }) :=
  retry_exhausted_returns_last_error sampleEnv sampleClient .background (topicMessage none)
    "token" 3
    (sampleWorld [answer 500 "500 Internal Server Error" errorBody,
      answer 502 "502 Bad Gateway" "<html>",
      answer 503 "503 Service Unavailable" ""])
    "\x7b\"message\":\x7b\x7d\x7d" 2 [answer 503 "503 Service Unavailable" ""] []
    { StatusCode := 503, Status := "503 Service Unavailable", Body := "" }
    (by decide) rfl (by decide) (by decide) rfl rfl (by decide)

end Fcm
